import Mathlib

/-!
Shallow embedding of `src/main.py` (investment calculator for the Swiss 3a
pillar).  Python floats are modelled by `ℚ` (exact arithmetic), numpy/pandas
`NaN` and the dataframe cells set to `None` are modelled by `Option ℚ`, and a
`pd.DataFrame` is modelled by a list of row structures.
-/

namespace ThreeAWodoo

/-- One row of the `pd.DataFrame` built by `calculate_compounding`
(`src/main.py`, lines 17-24): columns `Year`, `Total Contributions`,
`Accrued Interest`, `Total Value`, all numeric and fully populated. -/
structure ProjectionRow where
  year : ℕ
  totalContributions : ℚ
  accruedInterest : ℚ
  totalValue : ℚ
  deriving DecidableEq, Repr

/-- The recurrence computed by the loop at `src/main.py` lines 10-13:
`future_values[0] = initial_investment` and
`future_values[i] = future_values[i-1] * (1 + interest_rate) + yearly_contributions`. -/
def futureValue (rate init contrib : ℚ) : ℕ → ℚ
  | 0 => init
  | i + 1 => futureValue rate init contrib i * (1 + rate) + contrib

/-- `calculate_compounding` (`src/main.py` lines 7-25) for a non-negative
number of years.  Row `k` (0-based) holds `Year = k+1`,
`Total Contributions = cumsum(repeat(contrib, n))[k] = contrib * (k+1)`,
`Total Value = future_values[k+1]` (the year-0 entry is dropped by
`future_values[1:]`), and `Accrued Interest = Total Value - Total Contributions`. -/
def calculate_compounding (rate init contrib : ℚ) (n_years : ℕ) : List ProjectionRow :=
  (List.range n_years).map fun k =>
    { year := k + 1
      totalContributions := contrib * (k + 1)
      accruedInterest := futureValue rate init contrib (k + 1) - contrib * (k + 1)
      totalValue := futureValue rate init contrib (k + 1) }

/-- The numpy exceptions that `calculate_compounding` can actually raise for a
non-positive `n_years` (there is no validation code in the source). -/
inductive NumpyError where
  /-- raised by `future_values[0] = initial_investment` when the array is empty -/
  | indexError
  /-- raised by `np.zeros(n_years + 1)` when `n_years + 1 < 0` -/
  | valueError
  deriving DecidableEq, Repr

/-- `calculate_compounding` as callable from Python with an arbitrary integer
`n_years`.  `np.zeros(n_years + 1)` raises `ValueError` for a negative size;
for `n_years = -1` the array is empty and `future_values[0] = ...` raises
`IndexError`; otherwise the function returns normally (for `n_years = 0` the
resulting dataframe is empty). -/
def calculate_compounding_py (rate init contrib : ℚ) (n_years : ℤ) :
    Except NumpyError (List ProjectionRow) :=
  if n_years + 1 < 0 then .error .valueError
  else if n_years + 1 = 0 then .error .indexError
  else .ok (calculate_compounding rate init contrib n_years.toNat)

/-- A row of the composite dataframe `total_3a_result` (`src/main.py`
lines 146-167): the numeric columns may hold `NaN`/`None` (modelled as
`none`), as happens in the synthetic terminal tax row. -/
structure CompositeRow where
  year : ℕ
  totalContributions : Option ℚ
  accruedInterest : Option ℚ
  totalValue : Option ℚ
  deriving DecidableEq, Repr

/-- Coercion of a fully populated projection row into a composite row. -/
def ProjectionRow.toComposite (r : ProjectionRow) : CompositeRow :=
  { year := r.year
    totalContributions := some r.totalContributions
    accruedInterest := some r.accruedInterest
    totalValue := some r.totalValue }

/-- `total_3a_result["Total Value"] += src["Total Value"]` (`src/main.py`
line 147).  Pandas aligns the two series on their integer row index: positions
present in both are summed (`NaN` is absorbing), positions of the target
missing from the source become `NaN`, positions of the source beyond the
target are dropped. -/
def addColumnTotalValue : List CompositeRow → List CompositeRow → List CompositeRow
  | [], _ => []
  | r :: t, [] => { r with totalValue := none } :: addColumnTotalValue t []
  | r :: t, s :: ss =>
      { r with totalValue := Option.map₂ (· + ·) r.totalValue s.totalValue } ::
        addColumnTotalValue t ss

/-- `total_3a_result["Total Contributions"] += src["Total Contributions"]`
(`src/main.py` line 148), same alignment semantics as `addColumnTotalValue`. -/
def addColumnTotalContributions : List CompositeRow → List CompositeRow → List CompositeRow
  | [], _ => []
  | r :: t, [] => { r with totalContributions := none } :: addColumnTotalContributions t []
  | r :: t, s :: ss =>
      { r with totalContributions := Option.map₂ (· + ·) r.totalContributions s.totalContributions } ::
        addColumnTotalContributions t ss

/-- `total_3a_result["Accrued Interest"] += src["Accrued Interest"]`
(`src/main.py` line 149), same alignment semantics as `addColumnTotalValue`. -/
def addColumnAccruedInterest : List CompositeRow → List CompositeRow → List CompositeRow
  | [], _ => []
  | r :: t, [] => { r with accruedInterest := none } :: addColumnAccruedInterest t []
  | r :: t, s :: ss =>
      { r with accruedInterest := Option.map₂ (· + ·) r.accruedInterest s.accruedInterest } ::
        addColumnAccruedInterest t ss

/-- The three column additions of `src/main.py` lines 147-149 applied in
source order to a copy `t` of the 3a dataframe, with source dataframe `s`. -/
def mergeComposite (t s : List CompositeRow) : List CompositeRow :=
  addColumnAccruedInterest (addColumnTotalContributions (addColumnTotalValue t s) s) s

/-- The merge step of `src/main.py` lines 146-149: copy `data_result_3a`
(fully populated) and add the three value columns of
`data_result_tax_benefit` (also fully populated) into the copy. -/
def mergeSeries (a b : List ProjectionRow) : List CompositeRow :=
  mergeComposite (a.map ProjectionRow.toComposite) (b.map ProjectionRow.toComposite)

/-- The terminal tax step of `src/main.py` lines 151-167:
`gain = total["Total Value"].iloc[-1] - total["Total Contributions"].iloc[-1]`,
`tax = gain * tax_rate`, then `pd.concat` appends one synthetic row with
`Year = terminalYear` (literally `41` in the source), `None` contributions and
interest, and `Total Value = total["Total Value"].iloc[-1] - tax`.
`NaN` propagation through the subtractions is modelled by `Option`; the source
would raise on an empty dataframe (`iloc[-1]`), a case never reached. -/
def terminalTaxStep (total : List CompositeRow) (tax_rate : ℚ) (terminalYear : ℕ) :
    List CompositeRow :=
  let lastTV : Option ℚ := total.getLast?.bind CompositeRow.totalValue
  let lastTC : Option ℚ := total.getLast?.bind CompositeRow.totalContributions
  let gain : Option ℚ := Option.map₂ (· - ·) lastTV lastTC
  let tax : Option ℚ := gain.map (· * tax_rate)
  total ++
    [{ year := terminalYear
       totalContributions := none
       accruedInterest := none
       totalValue := Option.map₂ (· - ·) lastTV tax }]

/-- The full Option-2 composite series of `src/main.py` lines 107, 128-138 and
146-167: project the 3a pillar at `interest_rate - fees_3a`, project the tax
benefit (`7056 * tax_rate` yearly) at `interest_rate - fees_stock`, merge by
summation and append the terminal tax row with `Year = 41`. -/
def total_3a_result (interest_rate fees_stock fees_3a tax_rate : ℚ) : List CompositeRow :=
  let rate_stocks := interest_rate - fees_stock
  let rate_3a := interest_rate - fees_3a
  let data_result_3a := calculate_compounding rate_3a 0 7056 40
  let data_result_tax_benefit := calculate_compounding rate_stocks 0 (7056 * tax_rate) 40
  terminalTaxStep (mergeSeries data_result_3a data_result_tax_benefit) tax_rate 41

/-- Heap model for the dataframe objects manipulated by `src/main.py`
lines 146-167: `heap` holds the dataframe objects, and `d3a`, `dtb`, `total`
are the heap addresses currently bound to the Python variables
`data_result_3a`, `data_result_tax_benefit` and `total_3a_result`. -/
structure PdState where
  heap : List (List CompositeRow)
  d3a : ℕ
  dtb : ℕ
  total : ℕ
  deriving Repr

/-- Dereference a heap address. -/
def PdState.get (s : PdState) (a : ℕ) : List CompositeRow :=
  s.heap.getD a []

/-- State before line 146: the two projection dataframes live on the heap and
`total_3a_result` is not yet bound (address arbitrary). -/
def initState (a b : List ProjectionRow) : PdState :=
  { heap := [a.map ProjectionRow.toComposite, b.map ProjectionRow.toComposite]
    d3a := 0
    dtb := 1
    total := 0 }

/-- Line 146, `total_3a_result = data_result_3a.copy()`: allocate a fresh
object holding a copy of the 3a dataframe and bind `total` to it. -/
def stepCopy (s : PdState) : PdState :=
  { s with heap := s.heap ++ [s.get s.d3a], total := s.heap.length }

/-- Line 147: in-place update of the `Total Value` column of the object bound
to `total_3a_result`. -/
def stepAddTotalValue (s : PdState) : PdState :=
  { s with heap := s.heap.set s.total (addColumnTotalValue (s.get s.total) (s.get s.dtb)) }

/-- Line 148: in-place update of the `Total Contributions` column. -/
def stepAddTotalContributions (s : PdState) : PdState :=
  { s with
      heap := s.heap.set s.total (addColumnTotalContributions (s.get s.total) (s.get s.dtb)) }

/-- Line 149: in-place update of the `Accrued Interest` column. -/
def stepAddAccruedInterest (s : PdState) : PdState :=
  { s with heap := s.heap.set s.total (addColumnAccruedInterest (s.get s.total) (s.get s.dtb)) }

/-- Lines 151-167: `pd.concat` builds a new dataframe (it does not mutate its
inputs) and `total_3a_result` is rebound to it. -/
def stepTax (tax_rate : ℚ) (s : PdState) : PdState :=
  { s with heap := s.heap ++ [terminalTaxStep (s.get s.total) tax_rate 41]
           total := s.heap.length }

/-- The composition of `src/main.py` lines 146-167 as a heap-state program. -/
def composeOption2 (a b : List ProjectionRow) (tax_rate : ℚ) : PdState :=
  stepTax tax_rate
    (stepAddAccruedInterest (stepAddTotalContributions (stepAddTotalValue (stepCopy
      (initState a b)))))

/-! ### Supporting lemmas -/

lemma calculate_compounding_length (rate init contrib : ℚ) (n : ℕ) :
    (calculate_compounding rate init contrib n).length = n := by
  simp [calculate_compounding]

lemma calculate_compounding_getElem?_of_lt (rate init contrib : ℚ) {n i : ℕ} (hi : i < n) :
    (calculate_compounding rate init contrib n)[i]? =
      some { year := i + 1
             totalContributions := contrib * (i + 1)
             accruedInterest := futureValue rate init contrib (i + 1) - contrib * (i + 1)
             totalValue := futureValue rate init contrib (i + 1) } := by
  unfold calculate_compounding
  rw [List.getElem?_map, List.getElem?_range hi]
  rfl

lemma addColumnTotalValue_getElem? (t s : List CompositeRow) (i : ℕ) :
    (addColumnTotalValue t s)[i]? =
      t[i]?.map fun r =>
        { r with totalValue := s[i]?.bind fun sr => Option.map₂ (· + ·) r.totalValue sr.totalValue } := by
  induction t generalizing s i with
  | nil => simp [addColumnTotalValue]
  | cons r t ih =>
    cases s with
    | nil =>
      cases i with
      | zero => simp [addColumnTotalValue]
      | succ j => simpa [addColumnTotalValue] using ih [] j
    | cons sr ss =>
      cases i with
      | zero => simp [addColumnTotalValue]
      | succ j => simpa [addColumnTotalValue] using ih ss j

lemma addColumnTotalContributions_getElem? (t s : List CompositeRow) (i : ℕ) :
    (addColumnTotalContributions t s)[i]? =
      t[i]?.map fun r =>
        { r with totalContributions :=
            s[i]?.bind fun sr => Option.map₂ (· + ·) r.totalContributions sr.totalContributions } := by
  induction t generalizing s i with
  | nil => simp [addColumnTotalContributions]
  | cons r t ih =>
    cases s with
    | nil =>
      cases i with
      | zero => simp [addColumnTotalContributions]
      | succ j => simpa [addColumnTotalContributions] using ih [] j
    | cons sr ss =>
      cases i with
      | zero => simp [addColumnTotalContributions]
      | succ j => simpa [addColumnTotalContributions] using ih ss j

lemma addColumnAccruedInterest_getElem? (t s : List CompositeRow) (i : ℕ) :
    (addColumnAccruedInterest t s)[i]? =
      t[i]?.map fun r =>
        { r with accruedInterest :=
            s[i]?.bind fun sr => Option.map₂ (· + ·) r.accruedInterest sr.accruedInterest } := by
  induction t generalizing s i with
  | nil => simp [addColumnAccruedInterest]
  | cons r t ih =>
    cases s with
    | nil =>
      cases i with
      | zero => simp [addColumnAccruedInterest]
      | succ j => simpa [addColumnAccruedInterest] using ih [] j
    | cons sr ss =>
      cases i with
      | zero => simp [addColumnAccruedInterest]
      | succ j => simpa [addColumnAccruedInterest] using ih ss j

lemma addColumnTotalValue_length (t s : List CompositeRow) :
    (addColumnTotalValue t s).length = t.length := by
  induction t generalizing s with
  | nil => simp [addColumnTotalValue]
  | cons r t ih => cases s <;> simp [addColumnTotalValue, ih]

lemma addColumnTotalContributions_length (t s : List CompositeRow) :
    (addColumnTotalContributions t s).length = t.length := by
  induction t generalizing s with
  | nil => simp [addColumnTotalContributions]
  | cons r t ih => cases s <;> simp [addColumnTotalContributions, ih]

lemma addColumnAccruedInterest_length (t s : List CompositeRow) :
    (addColumnAccruedInterest t s).length = t.length := by
  induction t generalizing s with
  | nil => simp [addColumnAccruedInterest]
  | cons r t ih => cases s <;> simp [addColumnAccruedInterest, ih]

lemma mergeComposite_length (t s : List CompositeRow) :
    (mergeComposite t s).length = t.length := by
  simp [mergeComposite, addColumnAccruedInterest_length, addColumnTotalContributions_length,
    addColumnTotalValue_length]

lemma mergeComposite_getElem?_some (t s : List CompositeRow) {i : ℕ} {r sr : CompositeRow}
    (ht : t[i]? = some r) (hs : s[i]? = some sr) :
    (mergeComposite t s)[i]? =
      some { year := r.year
             totalContributions := Option.map₂ (· + ·) r.totalContributions sr.totalContributions
             accruedInterest := Option.map₂ (· + ·) r.accruedInterest sr.accruedInterest
             totalValue := Option.map₂ (· + ·) r.totalValue sr.totalValue } := by
  unfold mergeComposite
  rw [addColumnAccruedInterest_getElem?, addColumnTotalContributions_getElem?,
    addColumnTotalValue_getElem?, ht, hs]
  rfl

lemma mergeComposite_getElem?_none (t s : List CompositeRow) {i : ℕ} {r : CompositeRow}
    (ht : t[i]? = some r) (hs : s[i]? = none) :
    (mergeComposite t s)[i]? =
      some { year := r.year
             totalContributions := none
             accruedInterest := none
             totalValue := none } := by
  unfold mergeComposite
  rw [addColumnAccruedInterest_getElem?, addColumnTotalContributions_getElem?,
    addColumnTotalValue_getElem?, ht, hs]
  rfl

lemma mergeSeries_length (a b : List ProjectionRow) :
    (mergeSeries a b).length = a.length := by
  simp [mergeSeries, mergeComposite_length]

lemma mergeSeries_getElem?_some (a b : List ProjectionRow) {i : ℕ} {ra rb : ProjectionRow}
    (ha : a[i]? = some ra) (hb : b[i]? = some rb) :
    (mergeSeries a b)[i]? =
      some { year := ra.year
             totalContributions := some (ra.totalContributions + rb.totalContributions)
             accruedInterest := some (ra.accruedInterest + rb.accruedInterest)
             totalValue := some (ra.totalValue + rb.totalValue) } := by
  unfold mergeSeries
  have ht : (a.map ProjectionRow.toComposite)[i]? = some ra.toComposite := by
    rw [List.getElem?_map, ha]; rfl
  have hs : (b.map ProjectionRow.toComposite)[i]? = some rb.toComposite := by
    rw [List.getElem?_map, hb]; rfl
  rw [mergeComposite_getElem?_some _ _ ht hs]
  rfl

lemma mergeSeries_getElem?_none (a b : List ProjectionRow) {i : ℕ} {ra : ProjectionRow}
    (ha : a[i]? = some ra) (hb : b[i]? = none) :
    (mergeSeries a b)[i]? =
      some { year := ra.year
             totalContributions := none
             accruedInterest := none
             totalValue := none } := by
  unfold mergeSeries
  have ht : (a.map ProjectionRow.toComposite)[i]? = some ra.toComposite := by
    rw [List.getElem?_map, ha]; rfl
  have hs : (b.map ProjectionRow.toComposite)[i]? = none := by
    rw [List.getElem?_map, hb]; rfl
  rw [mergeComposite_getElem?_none _ _ ht hs]
  rfl

lemma futureValue_nonneg {rate init contrib : ℚ} (hr : 0 ≤ rate) (hi : 0 ≤ init)
    (hc : 0 ≤ contrib) (n : ℕ) : 0 ≤ futureValue rate init contrib n := by
  induction n with
  | zero => simpa [futureValue] using hi
  | succ k ih =>
    have h1 : (0:ℚ) ≤ futureValue rate init contrib k * (1 + rate) :=
      mul_nonneg ih (by linarith)
    simp only [futureValue]
    linarith

lemma futureValue_step_le {rate init contrib : ℚ} (hr : 0 ≤ rate) (hi : 0 ≤ init)
    (hc : 0 ≤ contrib) (n : ℕ) :
    futureValue rate init contrib n ≤ futureValue rate init contrib (n + 1) := by
  have h0 := futureValue_nonneg hr hi hc n
  have h1 : (0:ℚ) ≤ futureValue rate init contrib n * rate := mul_nonneg h0 hr
  simp only [futureValue]
  nlinarith

lemma contrib_mul_le_futureValue {rate init contrib : ℚ} (hr : 0 ≤ rate) (hi : 0 ≤ init)
    (hc : 0 ≤ contrib) (n : ℕ) :
    contrib * n ≤ futureValue rate init contrib n := by
  induction n with
  | zero => simpa [futureValue] using hi
  | succ k ih =>
    have h0 := futureValue_nonneg hr hi hc k
    have h1 : (0:ℚ) ≤ futureValue rate init contrib k * rate := mul_nonneg h0 hr
    have h2 : (contrib : ℚ) * (k + 1) = contrib * k + contrib := by ring
    simp only [futureValue]
    push_cast
    nlinarith

lemma total_3a_result_eq (ir fs f3 tr : ℚ) :
    total_3a_result ir fs f3 tr =
      terminalTaxStep
        (mergeSeries (calculate_compounding (ir - f3) 0 7056 40)
          (calculate_compounding (ir - fs) 0 (7056 * tr) 40)) tr 41 := rfl

lemma terminalTaxStep_mem {total : List CompositeRow} {tr : ℚ} {y : ℕ} {r : CompositeRow}
    (hr : r ∈ terminalTaxStep total tr y) :
    r ∈ total ∨ r.totalContributions = none := by
  simp only [terminalTaxStep, List.mem_append, List.mem_singleton] at hr
  rcases hr with h | h
  · exact Or.inl h
  · subst h
    exact Or.inr rfl

lemma calculate_compounding_getElem?_lt {rate init contrib : ℚ} {n i : ℕ}
    {r : ProjectionRow} (h : (calculate_compounding rate init contrib n)[i]? = some r) :
    i < n := by
  by_contra hle
  have hnone : (calculate_compounding rate init contrib n)[i]? = none :=
    List.getElem?_eq_none (by rw [calculate_compounding_length]; omega)
  rw [hnone] at h
  exact Option.noConfusion h

lemma calculate_compounding_year_map (r1 i1 c1 r2 i2 c2 : ℚ) (n i : ℕ) :
    (calculate_compounding r1 i1 c1 n)[i]?.map ProjectionRow.year =
      (calculate_compounding r2 i2 c2 n)[i]?.map ProjectionRow.year := by
  rcases lt_or_ge i n with h | h
  · rw [calculate_compounding_getElem?_of_lt r1 i1 c1 h,
      calculate_compounding_getElem?_of_lt r2 i2 c2 h]
    rfl
  · rw [List.getElem?_eq_none (by rw [calculate_compounding_length]; omega),
      List.getElem?_eq_none (by rw [calculate_compounding_length]; omega)]

lemma terminalTaxStep_populated_last {total : List CompositeRow} {tr : ℚ} {y : ℕ}
    {tv tc : ℚ} (htv : total.getLast?.bind CompositeRow.totalValue = some tv)
    (htc : total.getLast?.bind CompositeRow.totalContributions = some tc) :
    terminalTaxStep total tr y =
      total ++
        [{ year := y
           totalContributions := none
           accruedInterest := none
           totalValue := some (tv - (tv - tc) * tr) }] := by
  simp only [terminalTaxStep, htv, htc, Option.map₂_some_some, Option.map_some']

/-! ### Claim theorems -/

/-- C1: for every rate, initial investment, contribution and `years > 0`,
`calculate_compounding` returns exactly `years` rows; row `i` (0-based) carries
`Year = i + 1` — so the `Year` fields are strictly increasing `1..years` — and
`Total Value = futureValue (i+1)`, the recurrence value with `value 0 = initial`;
the year-0 value is excluded from the output. -/
theorem calculate_compounding_rows_spec (rate init contrib : ℚ) (years : ℕ)
    (h : 0 < years) :
    (calculate_compounding rate init contrib years).length = years ∧
    (∀ i : ℕ, i < years →
      (calculate_compounding rate init contrib years)[i]?.map ProjectionRow.year =
        some (i + 1) ∧
      (calculate_compounding rate init contrib years)[i]?.map ProjectionRow.totalValue =
        some (futureValue rate init contrib (i + 1))) ∧
    (∀ (i j : ℕ) (ri rj : ProjectionRow),
      (calculate_compounding rate init contrib years)[i]? = some ri →
      (calculate_compounding rate init contrib years)[j]? = some rj →
      i < j → ri.year < rj.year) := by
  refine ⟨calculate_compounding_length _ _ _ _, ?_, ?_⟩
  · intro i hi
    rw [calculate_compounding_getElem?_of_lt rate init contrib hi]
    exact ⟨rfl, rfl⟩
  · intro i j ri rj hri hrj hij
    have hi : i < years := calculate_compounding_getElem?_lt hri
    have hj : j < years := calculate_compounding_getElem?_lt hrj
    rw [calculate_compounding_getElem?_of_lt rate init contrib hi] at hri
    rw [calculate_compounding_getElem?_of_lt rate init contrib hj] at hrj
    obtain rfl := Option.some.inj hri
    obtain rfl := Option.some.inj hrj
    show i + 1 < j + 1
    omega

/-- Witness for C1 at `rate = 1/10`, `initial = 0`, `contribution = 100`,
`years = 2`. -/
theorem calculate_compounding_rows_spec_w :
    (calculate_compounding (1/10) 0 100 2).length = 2 :=
  (calculate_compounding_rows_spec (1/10) 0 100 2 (by norm_num)).1

/-- C2: every returned row `r` satisfies
`totalContributions = contribution * year` (the cumulative sum of the constant
per-year contribution) and `accruedInterest = totalValue - totalContributions`,
with `totalValue` the recurrence value of that year. -/
theorem calculate_compounding_derived_fields (rate init contrib : ℚ) (years : ℕ)
    (h : 0 < years) :
    ∀ (i : ℕ) (r : ProjectionRow),
      (calculate_compounding rate init contrib years)[i]? = some r →
      r.totalContributions = contrib * r.year ∧
      r.totalValue = futureValue rate init contrib r.year ∧
      r.accruedInterest = r.totalValue - r.totalContributions := by
  intro i r hr
  have hi : i < years := calculate_compounding_getElem?_lt hr
  rw [calculate_compounding_getElem?_of_lt rate init contrib hi] at hr
  obtain rfl := Option.some.inj hr
  refine ⟨?_, rfl, rfl⟩
  show contrib * (i + 1 : ℚ) = contrib * ((i + 1 : ℕ) : ℚ)
  push_cast
  ring

/-- Witness for C2 at `rate = 1/10`, `initial = 0`, `contribution = 100`,
`years = 2`, row index 0. -/
theorem calculate_compounding_derived_fields_w :
    (100 : ℚ) = 100 * ((1 : ℕ) : ℚ) ∧
    (100 : ℚ) = futureValue (1/10) 0 100 1 ∧
    (0 : ℚ) = (100 : ℚ) - 100 :=
  calculate_compounding_derived_fields (1/10) 0 100 2 (by norm_num) 0
    { year := 1, totalContributions := 100, accruedInterest := 0, totalValue := 100 }
    (by norm_num [calculate_compounding, futureValue])

/-- C3: in every series produced by `calculate_compounding`,
`totalValue = totalContributions + accruedInterest` holds exactly, and in the
composite series `total_3a_result` the same identity holds for every fully
populated row (the rationals model the float computation exactly, so no
tolerance is needed). -/
theorem totalValue_decomposition :
    (∀ (rate init contrib : ℚ) (years : ℕ),
      ∀ r ∈ calculate_compounding rate init contrib years,
        r.totalValue = r.totalContributions + r.accruedInterest) ∧
    (∀ (interest_rate fees_stock fees_3a tax_rate : ℚ),
      ∀ r ∈ total_3a_result interest_rate fees_stock fees_3a tax_rate,
        ∀ tv tc ai : ℚ, r.totalValue = some tv → r.totalContributions = some tc →
          r.accruedInterest = some ai → tv = tc + ai) := by
  constructor
  · intro rate init contrib years r hr
    rw [List.mem_iff_getElem?] at hr
    obtain ⟨i, hi⟩ := hr
    have hilt : i < years := calculate_compounding_getElem?_lt hi
    rw [calculate_compounding_getElem?_of_lt rate init contrib hilt] at hi
    obtain rfl := Option.some.inj hi
    show futureValue rate init contrib (i + 1) =
      contrib * (i + 1 : ℚ) + (futureValue rate init contrib (i + 1) - contrib * (i + 1 : ℚ))
    ring
  · intro ir fs f3 tr r hr tv tc ai htv htc hai
    rw [total_3a_result_eq] at hr
    rcases terminalTaxStep_mem hr with hm | hnone
    · rw [List.mem_iff_getElem?] at hm
      obtain ⟨i, hi⟩ := hm
      have hilt : i < 40 := by
        by_contra hle
        have hnone : (mergeSeries (calculate_compounding (ir - f3) 0 7056 40)
            (calculate_compounding (ir - fs) 0 (7056 * tr) 40))[i]? = none :=
          List.getElem?_eq_none
            (by rw [mergeSeries_length, calculate_compounding_length]; omega)
        rw [hnone] at hi
        exact Option.noConfusion hi
      have ha := calculate_compounding_getElem?_of_lt (ir - f3) 0 7056 hilt
      have hb := calculate_compounding_getElem?_of_lt (ir - fs) 0 (7056 * tr) hilt
      rw [mergeSeries_getElem?_some _ _ ha hb] at hi
      obtain rfl := Option.some.inj hi
      obtain rfl := Option.some.inj htv
      obtain rfl := Option.some.inj htc
      obtain rfl := Option.some.inj hai
      ring
    · rw [hnone] at htc
      exact Option.noConfusion htc

/-- Witness for C3 at `rate = 0`, `initial = 0`, `contribution = 1`, `years = 1`. -/
theorem totalValue_decomposition_w : (1 : ℚ) = 1 + 0 :=
  totalValue_decomposition.1 0 0 1 1
    { year := 1, totalContributions := 1, accruedInterest := 0, totalValue := 1 }
    (by norm_num [calculate_compounding, futureValue, List.range_succ])

/-- C8: with non-negative rate, initial investment and contribution, the
`Total Value` column of `calculate_compounding` is non-decreasing from one year
to the next. -/
theorem totalValue_monotone (rate init contrib : ℚ) (hr : 0 ≤ rate) (hi0 : 0 ≤ init)
    (hc : 0 ≤ contrib) (years : ℕ) :
    ∀ (i : ℕ) (r r' : ProjectionRow),
      (calculate_compounding rate init contrib years)[i]? = some r →
      (calculate_compounding rate init contrib years)[i + 1]? = some r' →
      r.totalValue ≤ r'.totalValue := by
  intro i r r' h1 h2
  have hj : i + 1 < years := calculate_compounding_getElem?_lt h2
  have hi : i < years := by omega
  rw [calculate_compounding_getElem?_of_lt rate init contrib hi] at h1
  rw [calculate_compounding_getElem?_of_lt rate init contrib hj] at h2
  obtain rfl := Option.some.inj h1
  obtain rfl := Option.some.inj h2
  exact futureValue_step_le hr hi0 hc (i + 1)

/-- Witness for C8 at `rate = 1/10`, `initial = 0`, `contribution = 100`,
`years = 2`, consecutive rows 0 and 1. -/
theorem totalValue_monotone_w : (100 : ℚ) ≤ 210 :=
  totalValue_monotone (1/10) 0 100 (by norm_num) (by norm_num) (by norm_num) 2 0
    { year := 1, totalContributions := 100, accruedInterest := 0, totalValue := 100 }
    { year := 2, totalContributions := 200, accruedInterest := 10, totalValue := 210 }
    (by norm_num [calculate_compounding, futureValue])
    (by norm_num [calculate_compounding, futureValue])

/-- C9 counterexample: with `rate = 0 ≥ 0` but a negative initial investment
(`initial = -100`, `contribution = 0`, `years = 1`) the single returned row has
`accruedInterest = -100 < 0`, refuting the claim that a non-negative rate forces
non-negative accrued interest for every projection. -/
theorem accruedInterest_negative_cex :
    ((0:ℚ) ≤ 0) ∧
    (calculate_compounding 0 (-100) 0 1).map ProjectionRow.accruedInterest = [-100] ∧
    ((-100:ℚ) < 0) := by
  refine ⟨le_refl 0, ?_, by norm_num⟩
  norm_num [calculate_compounding, futureValue, List.range_succ]

/-- C9 amended: if the rate, the initial investment and the contribution are
all non-negative, then every returned row has non-negative `accruedInterest`;
with a negative initial investment or contribution it can be negative even for
a non-negative rate. -/
theorem accruedInterest_nonneg_of_nonneg_params (rate init contrib : ℚ) (hr : 0 ≤ rate)
    (hi0 : 0 ≤ init) (hc : 0 ≤ contrib) (years : ℕ) :
    ∀ r ∈ calculate_compounding rate init contrib years, 0 ≤ r.accruedInterest := by
  intro r hmem
  rw [List.mem_iff_getElem?] at hmem
  obtain ⟨i, hi⟩ := hmem
  have hilt : i < years := calculate_compounding_getElem?_lt hi
  rw [calculate_compounding_getElem?_of_lt rate init contrib hilt] at hi
  obtain rfl := Option.some.inj hi
  show (0:ℚ) ≤ futureValue rate init contrib (i + 1) - contrib * (i + 1 : ℚ)
  have hle := contrib_mul_le_futureValue hr hi0 hc (i + 1)
  push_cast at hle
  linarith

/-- Witness for the amended C9 at `rate = 1/10`, `initial = 0`,
`contribution = 100`, `years = 2`, row 1. -/
theorem accruedInterest_nonneg_of_nonneg_params_w : (0 : ℚ) ≤ 10 :=
  accruedInterest_nonneg_of_nonneg_params (1/10) 0 100 (by norm_num) (by norm_num)
    (by norm_num) 2
    { year := 2, totalContributions := 200, accruedInterest := 10, totalValue := 210 }
    (by norm_num [calculate_compounding, futureValue, List.range_succ])

/-- C4: merging two projection series of equal length and identical year
columns yields a series of the same length in which the row for each matching
year holds the field-wise sums of `totalValue`, `totalContributions` and
`accruedInterest`. -/
theorem mergeSeries_equal_length_spec (a b : List ProjectionRow)
    (hlen : a.length = b.length)
    (hyear : ∀ i : ℕ, a[i]?.map ProjectionRow.year = b[i]?.map ProjectionRow.year) :
    (mergeSeries a b).length = a.length ∧
    ∀ (i : ℕ) (ra rb : ProjectionRow), a[i]? = some ra → b[i]? = some rb →
      ra.year = rb.year ∧
      (mergeSeries a b)[i]? =
        some { year := ra.year
               totalContributions := some (ra.totalContributions + rb.totalContributions)
               accruedInterest := some (ra.accruedInterest + rb.accruedInterest)
               totalValue := some (ra.totalValue + rb.totalValue) } := by
  refine ⟨mergeSeries_length a b, ?_⟩
  intro i ra rb ha hb
  constructor
  · have hy := hyear i
    rw [ha, hb] at hy
    exact Option.some.inj hy
  · exact mergeSeries_getElem?_some a b ha hb

/-- Witness for C4: merging the length-1 series of
`calculate_compounding 0 0 1 1` and `calculate_compounding 0 0 2 1`. -/
theorem mergeSeries_equal_length_spec_w :
    (mergeSeries (calculate_compounding 0 0 1 1) (calculate_compounding 0 0 2 1)).length =
      (calculate_compounding 0 0 1 1).length :=
  (mergeSeries_equal_length_spec (calculate_compounding 0 0 1 1)
    (calculate_compounding 0 0 2 1)
    (by rw [calculate_compounding_length, calculate_compounding_length])
    (fun i => calculate_compounding_year_map 0 0 1 0 0 2 1 i)).1

/-- C5: for every choice of the four input rates, the Option-2 composition
appends to the 40-row merged series exactly one synthetic row with
`Year = 40 + 1`, null `totalContributions` and `accruedInterest`, and
`totalValue = lastRow.totalValue - gain * tax_rate` where
`gain = lastRow.totalValue - lastRow.totalContributions`, for a total length
of `40 + 1`. -/
theorem option2_terminal_tax_row (interest_rate fees_stock fees_3a tax_rate : ℚ) :
    ∃ tv tc : ℚ,
      (mergeSeries (calculate_compounding (interest_rate - fees_3a) 0 7056 40)
            (calculate_compounding (interest_rate - fees_stock) 0 (7056 * tax_rate) 40)).getLast?.bind
          CompositeRow.totalValue = some tv ∧
      (mergeSeries (calculate_compounding (interest_rate - fees_3a) 0 7056 40)
            (calculate_compounding (interest_rate - fees_stock) 0 (7056 * tax_rate) 40)).getLast?.bind
          CompositeRow.totalContributions = some tc ∧
      total_3a_result interest_rate fees_stock fees_3a tax_rate =
        mergeSeries (calculate_compounding (interest_rate - fees_3a) 0 7056 40)
            (calculate_compounding (interest_rate - fees_stock) 0 (7056 * tax_rate) 40) ++
          [{ year := 40 + 1
             totalContributions := none
             accruedInterest := none
             totalValue := some (tv - (tv - tc) * tax_rate) }] ∧
      (total_3a_result interest_rate fees_stock fees_3a tax_rate).length = 40 + 1 := by
  have h39 : (39:ℕ) < 40 := by norm_num
  have ha := calculate_compounding_getElem?_of_lt (interest_rate - fees_3a) 0 7056 h39
  have hb := calculate_compounding_getElem?_of_lt (interest_rate - fees_stock) 0
    (7056 * tax_rate) h39
  have hm := mergeSeries_getElem?_some _ _ ha hb
  have hlen : (mergeSeries (calculate_compounding (interest_rate - fees_3a) 0 7056 40)
      (calculate_compounding (interest_rate - fees_stock) 0 (7056 * tax_rate) 40)).length = 40 := by
    rw [mergeSeries_length, calculate_compounding_length]
  have hlast : (mergeSeries (calculate_compounding (interest_rate - fees_3a) 0 7056 40)
        (calculate_compounding (interest_rate - fees_stock) 0 (7056 * tax_rate) 40)).getLast? =
      some { year := 39 + 1
             totalContributions := some (7056 * (39 + 1 : ℚ) + 7056 * tax_rate * (39 + 1 : ℚ))
             accruedInterest := some
               ((futureValue (interest_rate - fees_3a) 0 7056 (39 + 1) -
                   7056 * (39 + 1 : ℚ)) +
                 (futureValue (interest_rate - fees_stock) 0 (7056 * tax_rate) (39 + 1) -
                   7056 * tax_rate * (39 + 1 : ℚ)))
             totalValue := some
               (futureValue (interest_rate - fees_3a) 0 7056 (39 + 1) +
                 futureValue (interest_rate - fees_stock) 0 (7056 * tax_rate) (39 + 1)) } := by
    rw [List.getLast?_eq_getElem?, hlen]
    exact hm
  refine ⟨futureValue (interest_rate - fees_3a) 0 7056 (39 + 1) +
      futureValue (interest_rate - fees_stock) 0 (7056 * tax_rate) (39 + 1),
    7056 * (39 + 1 : ℚ) + 7056 * tax_rate * (39 + 1 : ℚ), ?_, ?_, ?_, ?_⟩
  · rw [hlast]; rfl
  · rw [hlast]; rfl
  · rw [total_3a_result_eq]
    exact terminalTaxStep_populated_last (by rw [hlast]; rfl) (by rw [hlast]; rfl)
  · rw [total_3a_result_eq]
    simp [terminalTaxStep, List.length_append, hlen]

/-- C6 counterexample: `calculate_compounding` performs no validation, so the
non-positive horizon `n_years = 0` does not fail at all — the function
silently returns an empty series instead of raising `InvalidArgument`. -/
theorem calculate_compounding_py_zero_years_ok :
    calculate_compounding_py (8/100) 0 7056 0 = Except.ok [] := by
  norm_num [calculate_compounding_py, calculate_compounding]

/-- C6 amended: `calculate_compounding` has no precondition check.  For
`n_years = 0` it returns an empty series, for `n_years = -1` it fails with a
numpy `IndexError`, for `n_years ≤ -2` with a numpy `ValueError`, and for
positive `n_years` it returns the projected rows; no `InvalidArgument` error
exists. -/
theorem calculate_compounding_py_no_validation (rate init contrib : ℚ) (n : ℤ) :
    (n = 0 → calculate_compounding_py rate init contrib n = .ok []) ∧
    (n = -1 → calculate_compounding_py rate init contrib n = .error .indexError) ∧
    (n ≤ -2 → calculate_compounding_py rate init contrib n = .error .valueError) ∧
    (0 < n → calculate_compounding_py rate init contrib n =
      .ok (calculate_compounding rate init contrib n.toNat)) := by
  refine ⟨?_, ?_, ?_, ?_⟩
  · intro hn
    subst hn
    norm_num [calculate_compounding_py, calculate_compounding]
  · intro hn
    subst hn
    norm_num [calculate_compounding_py]
  · intro hn
    unfold calculate_compounding_py
    rw [if_pos (by omega)]
  · intro hn
    unfold calculate_compounding_py
    rw [if_neg (by omega), if_neg (by omega)]

/-- Witness for the amended C6 at `n_years = -1`. -/
theorem calculate_compounding_py_no_validation_w :
    calculate_compounding_py 0 0 0 (-1) = .error .indexError :=
  (calculate_compounding_py_no_validation 0 0 0 (-1)).2.1 rfl

/-- C7 counterexample: merging two series of different lengths (2 rows and
1 row) does not fail with any `ShapeMismatch` error — the merge completes and
returns a 2-row series whose second row has null financial fields, matching
pandas index alignment. -/
theorem mergeSeries_mismatch_cex :
    mergeSeries (calculate_compounding 0 0 1 2) (calculate_compounding 0 0 1 1) =
      [{ year := 1, totalContributions := some 2, accruedInterest := some 0,
         totalValue := some 2 },
       { year := 2, totalContributions := none, accruedInterest := none,
         totalValue := none }] := by
  norm_num [mergeSeries, mergeComposite, calculate_compounding, futureValue, List.range_succ,
    addColumnTotalValue, addColumnTotalContributions, addColumnAccruedInterest,
    ProjectionRow.toComposite, Option.map₂]

/-- C7 amended: the merge step performs no length check and raises no
`ShapeMismatch`.  It always returns a series of the first input's length;
positions covered by both inputs are summed field-wise, and positions of the
first input beyond the second input's length keep their year but get null
(`NaN`) financial fields. -/
theorem mergeSeries_no_length_check (a b : List ProjectionRow) :
    (mergeSeries a b).length = a.length ∧
    (∀ (i : ℕ) (r : ProjectionRow), b.length ≤ i → a[i]? = some r →
      (mergeSeries a b)[i]? =
        some { year := r.year, totalContributions := none, accruedInterest := none,
               totalValue := none }) ∧
    (∀ (i : ℕ) (ra rb : ProjectionRow), a[i]? = some ra → b[i]? = some rb →
      (mergeSeries a b)[i]? =
        some { year := ra.year
               totalContributions := some (ra.totalContributions + rb.totalContributions)
               accruedInterest := some (ra.accruedInterest + rb.accruedInterest)
               totalValue := some (ra.totalValue + rb.totalValue) }) := by
  refine ⟨mergeSeries_length a b, ?_, ?_⟩
  · intro i r hbi ha
    exact mergeSeries_getElem?_none a b ha (List.getElem?_eq_none hbi)
  · intro i ra rb ha hb
    exact mergeSeries_getElem?_some a b ha hb

/-- Witness for the amended C7: series of lengths 2 and 1; row 1 of the result
has null fields. -/
theorem mergeSeries_no_length_check_w :
    (mergeSeries (calculate_compounding 0 0 1 2) (calculate_compounding 0 0 1 1))[1]? =
      some { year := 2, totalContributions := none, accruedInterest := none,
             totalValue := none } :=
  (mergeSeries_no_length_check (calculate_compounding 0 0 1 2)
      (calculate_compounding 0 0 1 1)).2.1 1
    { year := 2, totalContributions := 2, accruedInterest := 0, totalValue := 2 }
    (by rw [calculate_compounding_length])
    (by norm_num [calculate_compounding, futureValue])

/-- C10: in the heap model of `src/main.py` lines 146-167, after the whole
composition the objects bound to `data_result_3a` and
`data_result_tax_benefit` still hold their original rows, and
`total_3a_result` is bound to a freshly allocated object (an address distinct
from both inputs) holding the merged-and-taxed series — the code sums into a
copy of the 3a series and never mutates the inputs. -/
theorem composeOption2_frame (a b : List ProjectionRow) (tax_rate : ℚ) :
    (composeOption2 a b tax_rate).get (composeOption2 a b tax_rate).d3a =
      a.map ProjectionRow.toComposite ∧
    (composeOption2 a b tax_rate).get (composeOption2 a b tax_rate).dtb =
      b.map ProjectionRow.toComposite ∧
    (composeOption2 a b tax_rate).total ≠ (composeOption2 a b tax_rate).d3a ∧
    (composeOption2 a b tax_rate).total ≠ (composeOption2 a b tax_rate).dtb ∧
    (composeOption2 a b tax_rate).get (composeOption2 a b tax_rate).total =
      terminalTaxStep (mergeSeries a b) tax_rate 41 := by
  refine ⟨rfl, rfl, ?_, ?_, rfl⟩
  · show (3:ℕ) ≠ 0
    norm_num
  · show (3:ℕ) ≠ 1
    norm_num

end ThreeAWodoo
